import Mathlib

/-!
Shallow embedding of `src/src/auth/callback.ts` (function `onMcpAuthorization`)
and the data model of `src/src/auth/types.ts` from the MTG2000/use-mcp repository.

Modelling conventions:
* `window.location.search` query parameters are the four `Option String` fields of
  `QueryParams`; `URLSearchParams.get` returns `null` (here `none`) for an absent
  parameter and the empty string for `?p=`.  JavaScript truthiness of such a value
  is `truthy`.
* `localStorage` is an association list `Storage` with `getItem` / `setItem` /
  `removeItem`.  A stored value is a `StorageVal`: a JSON text that parses to a
  `StoredState`-shaped object, a JSON text of an `AuthResult` (written by the
  handler itself), a plain non-JSON string (code verifiers, URLs), or an
  unparseable blob.
* `Date.now()` is the `now : Nat` field of the environment (both calls in one
  branch of the source read essentially the same instant).
* The SDK call `auth(provider, {serverUrl, authorizationCode})` is an opaque
  external capability (spec §1, §6); its result (resolve `AUTHORIZED`, resolve
  another status string, or reject with an error message) is the `exchange`
  oracle of the environment.  Its internal token persistence is out of scope.
* `window.opener` and `postMessage` are the `opener` field; a delivery failure
  (`postFails`) makes the posted-message log empty, mirroring the swallowed
  try/catch around `postMessage`.
* Assigning `document.body.innerHTML` may itself throw (`displayFails`); the
  source swallows that failure.
* A JavaScript exception that escapes the whole handler (an uncaught fault in
  the `catch` block) is `Except.error (Fault.typeError st)`, carrying the
  storage contents at the moment the fault is raised.
-/

/-- The four query parameters the handler reads from the redirect URL. -/
structure QueryParams where
  code : Option String
  state : Option String
  error : Option String
  errorDescription : Option String
deriving Repr, DecidableEq

/-- JavaScript truthiness of a `URLSearchParams.get` result: `null` and the
empty string are falsy. -/
def truthy : Option String → Bool
  | none => false
  | some s => !(s == "")

/-- Provider options carried inside the stored state (types.ts).  The source
field `storageKeyPrefix` is called `storageKeyBase` here. -/
structure ProviderOptions where
  serverUrl : String
  storageKeyBase : String
  clientName : String
  clientUri : String
  callbackUrl : String
deriving Repr, DecidableEq

/-- The `StoredState` record of types.ts as it exists at runtime after
`JSON.parse`: every field may be absent from the parsed JSON object, so all
fields are optional here (the `metadata` field is never read by the handler and
is omitted).  When a `providerOptions` object is present its own fields are
taken to be present, matching the declared interface. -/
structure StoredState where
  expiry : Option Nat
  serverUrlHash : Option String
  authSessionId : Option String
  providerOptions : Option ProviderOptions
deriving Repr, DecidableEq

/-- The `AuthResult` record of types.ts. -/
structure AuthResult where
  success : Bool
  error : Option String
  timestamp : Nat
  expiry : Nat
deriving Repr, DecidableEq

/-- A value held in `localStorage`. -/
inductive StorageVal where
  /-- A blob on which `JSON.parse` throws. -/
  | malformed (raw : String)
  /-- A JSON text parsing to a `StoredState`-shaped object. -/
  | state (s : StoredState)
  /-- The JSON text of an `AuthResult` (as written by the handler). -/
  | result (r : AuthResult)
  /-- Any other plain string (code verifier, last authorization URL, tokens);
  such strings are not valid JSON. -/
  | plain (s : String)
deriving Repr, DecidableEq

/-- Browser `localStorage`, observed through `getItem` / `setItem` / `removeItem`. -/
abbrev Storage := List (String × StorageVal)

/-- The `localStorage.getItem` operation. -/
def getItem : Storage → String → Option StorageVal
  | [], _ => none
  | (k, v) :: rest, key => if k = key then some v else getItem rest key

/-- The `localStorage.removeItem` operation. -/
def removeItem : Storage → String → Storage
  | [], _ => []
  | (k, v) :: rest, key =>
    if k = key then removeItem rest key else (k, v) :: removeItem rest key

/-- The `localStorage.setItem` operation (overwrites any previous value for the key). -/
def setItem (st : Storage) (key : String) (v : StorageVal) : Storage :=
  (key, v) :: removeItem st key

/-- The cast `JSON.parse(storedStateJSON) as StoredState` at the state key.  A malformed
blob and a plain non-JSON string make `JSON.parse` throw; an `AuthResult` JSON
text parses to an object that, viewed through the `StoredState` interface, has
only its numeric `expiry` field. -/
def parseStoredState : StorageVal → Except Unit StoredState
  | StorageVal.malformed _ => Except.error ()
  | StorageVal.state s => Except.ok s
  | StorageVal.result r =>
    Except.ok { expiry := some r.expiry, serverUrlHash := none,
                authSessionId := none, providerOptions := none }
  | StorageVal.plain _ => Except.error ()

/-- The expiry validation of callback.ts line 48:
`!storedStateData.expiry || storedStateData.expiry < Date.now()`.
An absent or zero expiry is falsy; otherwise the comparison is strict. -/
def expiryInvalid : Option Nat → Nat → Bool
  | none, _ => true
  | some e, now => e == 0 || decide (e < now)

/-- Modelled from the spec: the `BrowserOAuthClientProvider` class
(browser-provider.js) is not under src/; per spec §6 its storage keys are
namespaced by the caller-supplied storage key prefix, so `getKey suffix` is
modelled as that namespace followed by the suffix. -/
structure BrowserOAuthClientProvider where
  serverUrl : String
  storageKeyBase : String
  clientName : String
  clientUri : String
  callbackUrl : String
deriving Repr, DecidableEq

/-- Modelled from the spec: storage key construction of the provider, §6. -/
def BrowserOAuthClientProvider.getKey (p : BrowserOAuthClientProvider)
    (suffix : String) : String :=
  p.storageKeyBase ++ ":" ++ suffix

/-- Re-instantiation of the provider from the stored provider options
(callback.ts lines 57-61). -/
def mkProvider (po : ProviderOptions) : BrowserOAuthClientProvider :=
  { serverUrl := po.serverUrl, storageKeyBase := po.storageKeyBase,
    clientName := po.clientName, clientUri := po.clientUri,
    callbackUrl := po.callbackUrl }

/-- Result of the opaque SDK `auth()` capability. -/
inductive ExchangeResult where
  /-- Call to `auth()` resolves with the string `AUTHORIZED`. -/
  | authorized
  /-- Call to `auth()` resolves with some other status string. -/
  | status (s : String)
  /-- Call to `auth()` rejects; the message of the raised error. -/
  | throws (m : String)
deriving Repr, DecidableEq

/-- The `window.opener` reference, when present. -/
structure Opener where
  closed : Bool
  /-- Whether `postMessage` on this opener throws (cross-origin / severed). -/
  postFails : Bool
deriving Repr, DecidableEq

/-- A `postMessage` payload actually delivered to the opener
(the constant `type: mcp_auth_callback` tag is implicit). -/
structure PostedMessage where
  success : Bool
  error : Option String
deriving Repr, DecidableEq

/-- How the handler body finished: the `try` block ran to completion, or the
`catch` block handled the given error message. -/
inductive Terminal where
  | ok
  | caught (msg : String)
deriving Repr, DecidableEq

/-- An exception escaping the handler itself: the TypeError raised inside the
`catch` block when `storedStateData.providerOptions` is absent while
`authSessionId` is present (callback.ts line 117).  It carries the storage
contents at the moment it is raised. -/
inductive Fault where
  | typeError (storage : Storage)
deriving Repr, DecidableEq

/-- The complete environment of one handler invocation. -/
structure CbEnv where
  query : QueryParams
  storage : Storage
  now : Nat
  exchange : ExchangeResult
  opener : Option Opener
  displayFails : Bool
deriving Repr, DecidableEq

/-- Everything observable about one (normally terminating) invocation. -/
structure Output where
  /-- Final `localStorage` contents. -/
  storage : Storage
  /-- Messages actually delivered through `postMessage`, in order. -/
  posted : List PostedMessage
  /-- The error message rendered into the fallback UI, if any. -/
  displayed : Option String
  /-- Whether the SDK `auth()` exchange was invoked. -/
  exchangeAttempted : Bool
  /-- The auth-result writes (key, record) performed, in order. -/
  publishes : List (String × AuthResult)
  terminal : Terminal
  /-- Whether `window.close()` was scheduled (success path only). -/
  closeScheduled : Bool
deriving Repr, DecidableEq

/-- The state key reconstruction of callback.ts line 22:
`state ? mcp:auth:state_<state> : null`. -/
def stateKeyFromParam : Option String → Option String
  | none => none
  | some s => if s = "" then none else some ("mcp:auth:state_" ++ s)

/-- The fallback `errorDescription || 'No description provided.'` (falsy check). -/
def descOrDefault : Option String → String
  | none => "No description provided."
  | some s => if s = "" then "No description provided." else s

/-- The message of the error thrown on a provider-reported OAuth error
(callback.ts line 27). -/
def oauthErrorMsg (e d : Option String) : String :=
  "OAuth error: " ++ (match e with | some s => s | none => "") ++ " - " ++
    descOrDefault d

def missingCodeMsg : String :=
  "Authorization code not found in callback query parameters."

def missingStateMsg : String :=
  "State parameter not found or invalid in callback query parameters."

def unknownStateMsg (s : String) : String :=
  "Invalid or expired state parameter \"" ++ s ++
    "\". No matching state found in storage."

def parseFailMsg : String := "Failed to parse stored OAuth state."

def expiredMsg : String :=
  "OAuth state has expired. Please try initiating authentication again."

def missingOptionsMsg : String :=
  "Stored state is missing required provider options."

def unexpectedResultMsg (s : String) : String :=
  "Unexpected result from authentication library: " ++ s

/-- The auth-result storage key
`<storageKeyPrefix>:auth_result_<authSessionId>` (callback.ts lines 77, 117). -/
def authResultKey (base sid : String) : String :=
  base ++ ":auth_result_" ++ sid

/-- The success record written on the success path (callback.ts lines 78-82). -/
def successResult (now : Nat) : AuthResult :=
  { success := true, error := none, timestamp := now, expiry := now + 300000 }

/-- The failure record written in the catch block (callback.ts lines 118-123). -/
def failureResult (now : Nat) (msg : String) : AuthResult :=
  { success := false, error := some msg, timestamp := now, expiry := now + 300000 }

/-- Best-effort `postMessage` to the opener: delivered only when an opener
exists, is not closed, and delivery does not throw; a throw is swallowed
(callback.ts lines 90-97 and 131-138). -/
def deliver (opener : Option Opener) (m : PostedMessage) : List PostedMessage :=
  match opener with
  | some op => if !op.closed && !op.postFails then [m] else []
  | none => []

/-- The tail of the catch block (callback.ts lines 130-166): best-effort
postMessage of the failure, fallback error UI (its own failure swallowed),
removal of the state key when one was derived, and removal of the provider's
code-verifier and last-auth-url keys when a provider had been instantiated. -/
def finishCatch (env : CbEnv) (provider : Option BrowserOAuthClientProvider)
    (stateKey : Option String) (storage : Storage) (exchAttempted : Bool)
    (msg : String) (pubs : List (String × AuthResult)) : Except Fault Output :=
  let posted := deliver env.opener { success := false, error := some msg }
  let displayed := if env.displayFails then none else some msg
  let storage1 := match stateKey with
    | some sk => removeItem storage sk
    | none => storage
  let storage2 := match provider with
    | some p =>
      removeItem (removeItem storage1 (BrowserOAuthClientProvider.getKey p ("code_verifier")))
        (BrowserOAuthClientProvider.getKey p ("last_auth_url"))
    | none => storage1
  Except.ok { storage := storage2, posted := posted, displayed := displayed,
              exchangeAttempted := exchAttempted, publishes := pubs,
              terminal := Terminal.caught msg, closeScheduled := false }

/-- The catch block of callback.ts (lines 111-166).  When the stored state was
loaded and carries a truthy `authSessionId`, the failure record is written
under the auth-result key — but building that key reads
`storedStateData.providerOptions.storageKeyPrefix`, which raises an uncaught
TypeError when `providerOptions` is absent (line 117). -/
def runCatch (env : CbEnv) (ssd : Option StoredState)
    (provider : Option BrowserOAuthClientProvider) (stateKey : Option String)
    (storage : Storage) (exchAttempted : Bool) (msg : String) :
    Except Fault Output :=
  match ssd with
  | some d =>
    match d.authSessionId with
    | some sid =>
      if sid = "" then finishCatch env provider stateKey storage exchAttempted msg []
      else
        match d.providerOptions with
        | none => Except.error (Fault.typeError storage)
        | some po =>
          let k := authResultKey po.storageKeyBase sid
          let r := failureResult env.now msg
          finishCatch env provider stateKey (setItem storage k (StorageVal.result r))
            exchAttempted msg [(k, r)]
    | none => finishCatch env provider stateKey storage exchAttempted msg []
  | none => finishCatch env provider stateKey storage exchAttempted msg []

/-- The success branch of callback.ts (lines 72-105): write the success record
under the auth-result key when a truthy `authSessionId` is present, best-effort
postMessage, schedule `window.close()`, and finally remove the state entry. -/
def successExit (env : CbEnv) (ssd : StoredState) (po : ProviderOptions)
    (sk : String) : Except Fault Output :=
  let pubs : List (String × AuthResult) :=
    match ssd.authSessionId with
    | some sid =>
      if sid = "" then []
      else [(authResultKey po.storageKeyBase sid, successResult env.now)]
    | none => []
  let storage1 := pubs.foldl (fun st p => setItem st p.1 (StorageVal.result p.2)) env.storage
  Except.ok { storage := removeItem storage1 sk,
              posted := deliver env.opener { success := true, error := none },
              displayed := none,
              exchangeAttempted := true,
              publishes := pubs,
              terminal := Terminal.ok,
              closeScheduled := true }

/-- The handler `onMcpAuthorization` of callback.ts, lines 10-168. -/
def onMcpAuthorization (env : CbEnv) : Except Fault Output :=
  let stateKey := stateKeyFromParam env.query.state
  if truthy env.query.error then
    runCatch env none none stateKey env.storage false
      (oauthErrorMsg env.query.error env.query.errorDescription)
  else if truthy env.query.code = false then
    runCatch env none none stateKey env.storage false missingCodeMsg
  else
    match env.query.state with
    | none => runCatch env none none none env.storage false missingStateMsg
    | some s =>
      if s = "" then runCatch env none none none env.storage false missingStateMsg
      else
        let sk := "mcp:auth:state_" ++ s
        match getItem env.storage sk with
        | none => runCatch env none none (some sk) env.storage false (unknownStateMsg s)
        | some v =>
          match parseStoredState v with
          | Except.error _ =>
            runCatch env none none (some sk) env.storage false parseFailMsg
          | Except.ok ssd =>
            if expiryInvalid ssd.expiry env.now then
              runCatch env (some ssd) none (some sk) (removeItem env.storage sk)
                false expiredMsg
            else
              match ssd.providerOptions with
              | none =>
                runCatch env (some ssd) none (some sk) env.storage false missingOptionsMsg
              | some po =>
                let provider := mkProvider po
                match env.exchange with
                | ExchangeResult.throws m =>
                  runCatch env (some ssd) (some provider) (some sk) env.storage true m
                | ExchangeResult.status st =>
                  runCatch env (some ssd) (some provider) (some sk) env.storage true
                    (unexpectedResultMsg st)
                | ExchangeResult.authorized => successExit env ssd po sk

/-- The failure message produced by a failing exchange: the raised message for
a rejection, the wrapped message for an unexpected resolved status
(callback.ts line 109). -/
def exchangeFailMsg : ExchangeResult → Option String
  | ExchangeResult.authorized => none
  | ExchangeResult.status st => some (unexpectedResultMsg st)
  | ExchangeResult.throws m => some m

/-- The `localStorage` contents after an invocation, also when the handler
raises an uncaught fault (the storage survives the exception). -/
def resultStorage : Except Fault Output → Storage
  | Except.ok o => o.storage
  | Except.error (Fault.typeError st) => st

theorem getItem_removeItem (st : Storage) (k k2 : String) :
    getItem (removeItem st k2) k = if k = k2 then none else getItem st k := by
  induction st with
  | nil => simp [removeItem, getItem]
  | cons hd tl ih =>
    obtain ⟨k0, v0⟩ := hd
    by_cases h0 : k0 = k2
    · subst h0
      rw [removeItem, if_pos rfl, ih]
      by_cases hk : k = k0
      · subst hk
        simp
      · have hne : ¬ k0 = k := fun h => hk h.symm
        rw [if_neg hk, if_neg hk]
        simp [getItem, hne]
    · rw [removeItem, if_neg h0]
      by_cases hk0 : k0 = k
      · subst hk0
        simp [getItem, h0]
      · simp [getItem, hk0, ih]

theorem getItem_setItem (st : Storage) (k k2 : String) (v : StorageVal) :
    getItem (setItem st k2 v) k = if k = k2 then some v else getItem st k := by
  by_cases hk : k = k2
  · subst hk
    simp [setItem, getItem]
  · have hk2 : ¬ k2 = k := fun h => hk h.symm
    simp [setItem, getItem, hk2, getItem_removeItem, hk]

theorem finishCatch_absent (env : CbEnv) (pr : Option BrowserOAuthClientProvider)
    (sk : String) (st : Storage) (ea : Bool) (m : String)
    (pubs : List (String × AuthResult)) (out : Output)
    (h : finishCatch env pr (some sk) st ea m pubs = Except.ok out) :
    getItem out.storage sk = none := by
  simp only [finishCatch, Except.ok.injEq] at h
  subst h
  cases pr with
  | none => simp [getItem_removeItem]
  | some p => simp [getItem_removeItem]

/-- Inversion for a normally terminating catch block: the terminal state is the
caught message, the exchange flag is the one passed in, no close is scheduled,
and a state key handed to the cleanup is absent afterward. -/
theorem runCatch_ok_inv (env : CbEnv) (sd : Option StoredState)
    (pr : Option BrowserOAuthClientProvider) (skk : Option String) (st : Storage)
    (ea : Bool) (m : String) (out : Output)
    (h : runCatch env sd pr skk st ea m = Except.ok out) :
    out.terminal = Terminal.caught m ∧ out.exchangeAttempted = ea ∧
      out.closeScheduled = false ∧
      (∀ sk, skk = some sk → getItem out.storage sk = none) := by
  have hfin : ∀ (st2 : Storage) (pubs : List (String × AuthResult)),
      finishCatch env pr skk st2 ea m pubs = Except.ok out →
      out.terminal = Terminal.caught m ∧ out.exchangeAttempted = ea ∧
        out.closeScheduled = false ∧
        (∀ sk, skk = some sk → getItem out.storage sk = none) := by
    intro st2 pubs hf
    simp only [finishCatch, Except.ok.injEq] at hf
    subst hf
    refine ⟨rfl, rfl, rfl, ?_⟩
    intro sk hsk
    subst hsk
    cases pr with
    | none => simp [getItem_removeItem]
    | some p => simp [getItem_removeItem]
  cases sd with
  | none =>
    simp only [runCatch] at h
    exact hfin st [] h
  | some d =>
    simp only [runCatch] at h
    cases hsid : d.authSessionId with
    | none =>
      simp only [hsid] at h
      exact hfin st [] h
    | some sid =>
      simp only [hsid] at h
      by_cases hse : sid = ""
      · rw [if_pos hse] at h
        exact hfin st [] h
      · rw [if_neg hse] at h
        cases hpo : d.providerOptions with
        | none =>
          simp only [hpo] at h
          exact absurd h (by simp)
        | some po =>
          simp only [hpo] at h
          exact hfin _ _ h

/-- The catch block leaves a state key absent from the surviving storage also
when it raises the uncaught TypeError, provided the key was already absent when
the block started (the fault is raised before the auth-result write). -/
theorem runCatch_resultStorage_absent (env : CbEnv) (sd : Option StoredState)
    (pr : Option BrowserOAuthClientProvider) (sk : String) (st : Storage)
    (ea : Bool) (m : String) (h0 : getItem st sk = none) :
    getItem (resultStorage (runCatch env sd pr (some sk) st ea m)) sk = none := by
  cases hr : runCatch env sd pr (some sk) st ea m with
  | ok out =>
    simpa [resultStorage] using
      (runCatch_ok_inv env sd pr (some sk) st ea m out hr).2.2.2 sk rfl
  | error f =>
    cases f with
    | typeError st2 =>
      have hst : st2 = st := by
        cases sd with
        | none =>
          simp only [runCatch] at hr
          simp [finishCatch] at hr
        | some d =>
          simp only [runCatch] at hr
          cases hsid : d.authSessionId with
          | none =>
            simp only [hsid] at hr
            simp [finishCatch] at hr
          | some sid =>
            simp only [hsid] at hr
            by_cases hse : sid = ""
            · rw [if_pos hse] at hr
              simp [finishCatch] at hr
            · rw [if_neg hse] at hr
              cases hpo : d.providerOptions with
              | none =>
                simp only [hpo] at hr
                simp at hr
                exact hr.symm
              | some po =>
                simp only [hpo] at hr
                simp [finishCatch] at hr
      subst hst
      simpa [resultStorage] using h0

/-- Concrete provider options used by witnesses, with the default namespace of
the library. -/
def po0 : ProviderOptions :=
  { serverUrl := "https://server.example", storageKeyBase := "mcp:auth",
    clientName := "client", clientUri := "https://client.example",
    callbackUrl := "https://client.example/callback" }

/-- A well-formed, unexpired stored state with a session id. -/
def ssd0 : StoredState :=
  { expiry := some 301000, serverUrlHash := some ("h"),
    authSessionId := some ("sess1"), providerOptions := some po0 }

/-- The redirect of the C1 scenario:
`?error=access_denied&error_description=User+declined&state=s1`, with a
matching unexpired PendingState entry carrying session id `sess1`. -/
def envC1 : CbEnv :=
  { query := { code := none, state := some ("s1"),
               error := some ("access_denied"),
               errorDescription := some ("User declined") },
    storage := [("mcp:auth:state_s1", StorageVal.state ssd0)],
    now := 1000, exchange := ExchangeResult.authorized, opener := none,
    displayFails := false }

/-- Claim C1 (counterexample): for the scenario redirect
`?error=access_denied&error_description=User+declined&state=s1` with a matching
PendingState carrying session id `sess1`, the handler publishes NO Outcome at
all — the publish log is empty and nothing is stored under the auth-result key
— because the error check throws before the stored state is ever read.  This
refutes the claimed published `{success:false, error: "OAuth error:
access_denied - User declined"}` Outcome (only the direct channel and the
fallback UI carry that message). -/
theorem C1_counterexample :
    (onMcpAuthorization envC1).map Output.publishes = Except.ok [] ∧
    (onMcpAuthorization envC1).map
        (fun o => getItem o.storage (authResultKey ("mcp:auth") ("sess1"))) =
      Except.ok none ∧
    (onMcpAuthorization envC1).map Output.exchangeAttempted = Except.ok false := by
  exact ⟨rfl, rfl, rfl⟩

/-- Claim C1 (amended): when the callback query carries a truthy `error`, no
token exchange is attempted and no Outcome is published to the result store —
the stored PendingState is never read on this path, so even a matching entry
with a session id produces no published Outcome.  The failure, with message
`OAuth error: <error> - <description or default>`, reaches only the best-effort
direct channel and the fallback UI; storage is changed only by removing the
state key. -/
theorem C1_amended (env : CbEnv) (e : String)
    (he : env.query.error = some e) (hne : ¬ e = "") :
    (onMcpAuthorization env).map Output.exchangeAttempted = Except.ok false ∧
    (onMcpAuthorization env).map Output.publishes = Except.ok [] ∧
    (onMcpAuthorization env).map Output.storage =
      Except.ok (match stateKeyFromParam env.query.state with
        | some sk => removeItem env.storage sk
        | none => env.storage) ∧
    (onMcpAuthorization env).map Output.terminal =
      Except.ok (Terminal.caught
        ("OAuth error: " ++ e ++ " - " ++ descOrDefault env.query.errorDescription)) ∧
    (onMcpAuthorization env).map Output.posted =
      Except.ok (deliver env.opener
        { success := false,
          error := some ("OAuth error: " ++ e ++ " - " ++
            descOrDefault env.query.errorDescription) }) := by
  refine ⟨?_, ?_, ?_, ?_, ?_⟩ <;>
    simp [onMcpAuthorization, truthy, he, hne, runCatch, finishCatch,
      oauthErrorMsg, Except.map]

/-- Witness for C1 (amended) at the C1 scenario input. -/
theorem C1_amended_witness :
    (onMcpAuthorization envC1).map Output.publishes = Except.ok [] ∧
    (onMcpAuthorization envC1).map Output.terminal =
      Except.ok (Terminal.caught
        ("OAuth error: " ++ "access_denied" ++ " - " ++
          descOrDefault envC1.query.errorDescription)) := by
  exact ⟨(C1_amended envC1 ("access_denied") rfl (by decide)).2.1,
         (C1_amended envC1 ("access_denied") rfl (by decide)).2.2.2.1⟩

/-- Claim C5: the handler validates the redirect parameters in this fixed
order, each check a hard stop into the failure path: a truthy `error` fails
with the formatted provider error (whether or not `code` or `state` are
present); otherwise a falsy `code` fails with the missing-code reason;
otherwise a falsy `state` fails with the missing-state reason. -/
theorem C5_validation_order (env : CbEnv) :
    (∀ e, env.query.error = some e → ¬ e = "" →
      (onMcpAuthorization env).map Output.terminal =
        Except.ok (Terminal.caught
          ("OAuth error: " ++ e ++ " - " ++ descOrDefault env.query.errorDescription)) ∧
      (onMcpAuthorization env).map Output.exchangeAttempted = Except.ok false) ∧
    (truthy env.query.error = false → truthy env.query.code = false →
      (onMcpAuthorization env).map Output.terminal =
        Except.ok (Terminal.caught missingCodeMsg)) ∧
    (truthy env.query.error = false → truthy env.query.code = true →
      truthy env.query.state = false →
      (onMcpAuthorization env).map Output.terminal =
        Except.ok (Terminal.caught missingStateMsg)) := by
  refine ⟨?_, ?_, ?_⟩
  · intro e he hne
    constructor
    · simp [onMcpAuthorization, truthy, he, hne, runCatch, finishCatch,
        oauthErrorMsg, Except.map]
    · simp [onMcpAuthorization, truthy, he, hne, runCatch, finishCatch,
        Except.map]
  · intro he hc
    simp [onMcpAuthorization, he, hc, runCatch, finishCatch, Except.map]
  · intro he hc hst
    cases hq : env.query.state with
    | none =>
      simp [onMcpAuthorization, he, hc, hq, runCatch, finishCatch, Except.map]
    | some s =>
      have hse : s = "" := by
        rw [hq] at hst
        simpa [truthy] using hst
      subst hse
      simp [onMcpAuthorization, he, hc, hq, runCatch, finishCatch, Except.map]

/-- Witness for C5 at a concrete redirect carrying all of `error`, `code`, and
`state`: the error check wins. -/
theorem C5_validation_order_witness :
    (onMcpAuthorization envC1).map Output.terminal =
      Except.ok (Terminal.caught
        ("OAuth error: " ++ "access_denied" ++ " - " ++
          descOrDefault envC1.query.errorDescription)) := by
  exact ((C5_validation_order envC1).1 "access_denied" rfl (by decide)).1

/-- A stored state with a session id but no provider options: the shape the
runtime check at callback.ts line 54 guards against. -/
def ssdC9 : StoredState :=
  { expiry := some 2000, serverUrlHash := none,
    authSessionId := some ("sess1"), providerOptions := none }

/-- Redirect `?code=abc&state=s1` whose matching stored state carries a session
id but no provider options. -/
def envC9 : CbEnv :=
  { query := { code := some ("abc"), state := some ("s1"), error := none,
               errorDescription := none },
    storage := [("mcp:auth:state_s1", StorageVal.state ssdC9)],
    now := 1000, exchange := ExchangeResult.authorized, opener := none,
    displayFails := false }

/-- Claim C9 (code bug, evaluated at the failing input): on the redirect
`?code=abc&state=s1` with stored state `{expiry: 2000, authSessionId: "sess1"}`
(no `providerOptions`) at time 1000, the handler raises an uncaught TypeError:
the `catch` block itself dereferences the absent `providerOptions` while
building the auth-result key (callback.ts line 117), so the failure is not
converted into an Outcome write or a fallback UI, contradicting the claim that
no fault ever propagates to the caller. -/
theorem C9_uncaught_fault :
    onMcpAuthorization envC9 =
      Except.error (Fault.typeError
        [("mcp:auth:state_s1", StorageVal.state ssdC9)]) := rfl

/-- A stored state whose expiry equals the current clock exactly. -/
def ssdC2x : StoredState :=
  { expiry := some 1000, serverUrlHash := some ("h"),
    authSessionId := some ("sess1"), providerOptions := some po0 }

/-- Redirect `?code=abc&state=s1` read at `now = 1000` against an entry with
`expiry = 1000`. -/
def envC2 : CbEnv :=
  { query := { code := some ("abc"), state := some ("s1"), error := none,
               errorDescription := none },
    storage := [("mcp:auth:state_s1", StorageVal.state ssdC2x)],
    now := 1000, exchange := ExchangeResult.authorized, opener := none,
    displayFails := false }

/-- Claim C2 (counterexample): an entry with `expiry = 1000` read at
`now = 1000` satisfies `expiry <= now`, yet the handler does NOT treat it as
expired or missing — the check at callback.ts line 48 is strict — so the run
attempts the exchange and completes successfully instead of failing with the
expired-state reason. -/
theorem C2_counterexample :
    ssdC2x.expiry = some 1000 ∧ envC2.now = 1000 ∧
    (onMcpAuthorization envC2).map Output.terminal = Except.ok Terminal.ok ∧
    (onMcpAuthorization envC2).map Output.exchangeAttempted = Except.ok true := by
  exact ⟨rfl, rfl, rfl, rfl⟩

/-- Claim C2 (amended): an entry whose `expiry` is absent, zero, or strictly
below `now` when the handler reads it is treated as expired: the entry is
removed from storage as a side effect of discovering the expiry (so a
subsequent lookup of the key returns not found, even when the catch block later
faults), and on normal termination the attempt fails with the expired-state
reason without attempting the exchange.  An entry with nonzero
`expiry = now` is still accepted. -/
theorem C2_amended (env : CbEnv) (s : String) (v : StorageVal) (ssd : StoredState)
    (herr : truthy env.query.error = false) (hcode : truthy env.query.code = true)
    (hstate : env.query.state = some s) (hs : ¬ s = "")
    (hget : getItem env.storage ("mcp:auth:state_" ++ s) = some v)
    (hparse : parseStoredState v = Except.ok ssd)
    (hexp : expiryInvalid ssd.expiry env.now = true) :
    getItem (resultStorage (onMcpAuthorization env)) ("mcp:auth:state_" ++ s) = none ∧
    (∀ out, onMcpAuthorization env = Except.ok out →
      out.terminal = Terminal.caught expiredMsg ∧ out.exchangeAttempted = false) := by
  have hred : onMcpAuthorization env =
      runCatch env (some ssd) none (some ("mcp:auth:state_" ++ s))
        (removeItem env.storage ("mcp:auth:state_" ++ s)) false expiredMsg := by
    simp [onMcpAuthorization, herr, hcode, hstate, hs, hget, hparse, hexp]
  constructor
  · rw [hred]
    exact runCatch_resultStorage_absent env (some ssd) none _ _ false expiredMsg
      (by simp [getItem_removeItem])
  · intro out hout
    rw [hred] at hout
    have h2 := runCatch_ok_inv env (some ssd) none _ _ false expiredMsg out hout
    exact ⟨h2.1, h2.2.1⟩

/-- A stored state expired strictly in the past, with no session id. -/
def ssdC2w : StoredState :=
  { expiry := some 500, serverUrlHash := none,
    authSessionId := none, providerOptions := some po0 }

/-- Redirect `?code=abc&state=s1` at `now = 1000` against an entry that expired
at 500. -/
def envC2w : CbEnv :=
  { query := { code := some ("abc"), state := some ("s1"), error := none,
               errorDescription := none },
    storage := [("mcp:auth:state_s1", StorageVal.state ssdC2w)],
    now := 1000, exchange := ExchangeResult.authorized, opener := none,
    displayFails := false }

/-- Witness for C2 (amended) at a concretely expired entry. -/
theorem C2_amended_witness :
    getItem (resultStorage (onMcpAuthorization envC2w)) ("mcp:auth:state_" ++ "s1") = none := by
  exact (C2_amended envC2w ("s1") (StorageVal.state ssdC2w) ssdC2w rfl rfl rfl
    (by decide) rfl rfl rfl).1

/-- Claim C10: when the stored blob at the presented state key exists but is
not parseable as the expected record, the handler fails the attempt with the
parse-failure reason, removes the entry during cleanup, and publishes no
Outcome — the stored state is never loaded on this path, so any session id
inside the blob is unreachable. -/
theorem C10_malformed_state (env : CbEnv) (s : String) (v : StorageVal)
    (herr : truthy env.query.error = false) (hcode : truthy env.query.code = true)
    (hstate : env.query.state = some s) (hs : ¬ s = "")
    (hget : getItem env.storage ("mcp:auth:state_" ++ s) = some v)
    (hparse : parseStoredState v = Except.error ()) :
    (onMcpAuthorization env).map Output.terminal =
      Except.ok (Terminal.caught parseFailMsg) ∧
    (onMcpAuthorization env).map Output.publishes = Except.ok [] ∧
    (onMcpAuthorization env).map
        (fun o => getItem o.storage ("mcp:auth:state_" ++ s)) = Except.ok none := by
  have hred : onMcpAuthorization env =
      runCatch env none none (some ("mcp:auth:state_" ++ s)) env.storage false
        parseFailMsg := by
    simp [onMcpAuthorization, herr, hcode, hstate, hs, hget, hparse]
  rw [hred]
  refine ⟨?_, ?_, ?_⟩ <;>
    simp [runCatch, finishCatch, Except.map, getItem_removeItem]

/-- A malformed blob (JSON.parse throws on it) stored at the state key. -/
def envC10 : CbEnv :=
  { query := { code := some ("abc"), state := some ("s1"), error := none,
               errorDescription := none },
    storage := [("mcp:auth:state_s1", StorageVal.malformed ("not json"))],
    now := 1000, exchange := ExchangeResult.authorized, opener := none,
    displayFails := false }

/-- Witness for C10 at a concretely malformed stored blob. -/
theorem C10_malformed_state_witness :
    (onMcpAuthorization envC10).map Output.terminal =
      Except.ok (Terminal.caught parseFailMsg) ∧
    (onMcpAuthorization envC10).map Output.publishes = Except.ok [] := by
  have h := C10_malformed_state envC10 ("s1") (StorageVal.malformed ("not json"))
    rfl rfl rfl (by decide) rfl rfl
  exact ⟨h.1, h.2.1⟩

/-- Claim C3: for a matching, unexpired PendingState entry with a truthy
session id and present provider options, a redirect carrying the entry's state
and a code whose exchange succeeds publishes exactly one successful Outcome
`{success: true, timestamp: now, expiry: now + 300000}` under the entry's
session id, and the PendingState entry is absent from storage afterward.  The
storage-presence conjunct assumes the auth-result key differs from the state
key (true for every sane namespace; the publish-log conjunct holds without
it). -/
theorem C3_success (env : CbEnv) (s sid : String) (v : StorageVal)
    (ssd : StoredState) (po : ProviderOptions)
    (herr : truthy env.query.error = false) (hcode : truthy env.query.code = true)
    (hstate : env.query.state = some s) (hs : ¬ s = "")
    (hget : getItem env.storage ("mcp:auth:state_" ++ s) = some v)
    (hparse : parseStoredState v = Except.ok ssd)
    (hexp : expiryInvalid ssd.expiry env.now = false)
    (hpo : ssd.providerOptions = some po)
    (hsid : ssd.authSessionId = some sid) (hsne : ¬ sid = "")
    (hex : env.exchange = ExchangeResult.authorized)
    (hkey : ¬ authResultKey po.storageKeyBase sid = "mcp:auth:state_" ++ s) :
    (onMcpAuthorization env).map Output.terminal = Except.ok Terminal.ok ∧
    (onMcpAuthorization env).map Output.publishes =
      Except.ok [(authResultKey po.storageKeyBase sid,
        { success := true, error := none, timestamp := env.now,
          expiry := env.now + 300000 })] ∧
    (onMcpAuthorization env).map
        (fun o => getItem o.storage (authResultKey po.storageKeyBase sid)) =
      Except.ok (some (StorageVal.result
        { success := true, error := none, timestamp := env.now,
          expiry := env.now + 300000 })) ∧
    (onMcpAuthorization env).map
        (fun o => getItem o.storage ("mcp:auth:state_" ++ s)) = Except.ok none ∧
    (onMcpAuthorization env).map Output.closeScheduled = Except.ok true := by
  have hred : onMcpAuthorization env =
      successExit env ssd po ("mcp:auth:state_" ++ s) := by
    simp [onMcpAuthorization, herr, hcode, hstate, hs, hget, hparse, hexp, hpo,
      hex]
  rw [hred]
  refine ⟨?_, ?_, ?_, ?_, ?_⟩ <;>
    simp [successExit, hsid, hsne, successResult, Except.map,
      getItem_removeItem, getItem_setItem, hkey]

/-- The standard success scenario: entry `s1`, session id `sess1`, exchange
authorized. -/
def envC3 : CbEnv :=
  { query := { code := some ("abc"), state := some ("s1"), error := none,
               errorDescription := none },
    storage := [("mcp:auth:state_s1", StorageVal.state ssd0)],
    now := 1000, exchange := ExchangeResult.authorized, opener := none,
    displayFails := false }

/-- Witness for C3 at the concrete success scenario. -/
theorem C3_success_witness :
    (onMcpAuthorization envC3).map Output.terminal = Except.ok Terminal.ok ∧
    (onMcpAuthorization envC3).map Output.publishes =
      Except.ok [(authResultKey ("mcp:auth") ("sess1"),
        { success := true, error := none, timestamp := 1000,
          expiry := 1000 + 300000 })] := by
  have h := C3_success envC3 ("s1") ("sess1") (StorageVal.state ssd0) ssd0 po0
    rfl rfl rfl (by decide) rfl rfl rfl rfl rfl (by decide) rfl (by decide)
  exact ⟨h.1, h.2.1⟩

/-- Claim C8: when the matching, unexpired entry has no (truthy) session id, no
Outcome is published — the publish log is empty and storage changes only by the
removal of the state entry — yet a successful exchange still ends in the
success terminal state, with state-entry cleanup, best-effort direct
notification, and the scheduled close of the callback surface. -/
theorem C8_no_session_id (env : CbEnv) (s : String) (v : StorageVal)
    (ssd : StoredState) (po : ProviderOptions)
    (herr : truthy env.query.error = false) (hcode : truthy env.query.code = true)
    (hstate : env.query.state = some s) (hs : ¬ s = "")
    (hget : getItem env.storage ("mcp:auth:state_" ++ s) = some v)
    (hparse : parseStoredState v = Except.ok ssd)
    (hexp : expiryInvalid ssd.expiry env.now = false)
    (hpo : ssd.providerOptions = some po)
    (hsid : truthy ssd.authSessionId = false)
    (hex : env.exchange = ExchangeResult.authorized) :
    (onMcpAuthorization env).map Output.publishes = Except.ok [] ∧
    (onMcpAuthorization env).map Output.terminal = Except.ok Terminal.ok ∧
    (onMcpAuthorization env).map Output.storage =
      Except.ok (removeItem env.storage ("mcp:auth:state_" ++ s)) ∧
    (onMcpAuthorization env).map Output.posted =
      Except.ok (deliver env.opener { success := true, error := none }) ∧
    (onMcpAuthorization env).map Output.closeScheduled = Except.ok true := by
  have hred : onMcpAuthorization env =
      successExit env ssd po ("mcp:auth:state_" ++ s) := by
    simp [onMcpAuthorization, herr, hcode, hstate, hs, hget, hparse, hexp, hpo,
      hex]
  rw [hred]
  cases hq : ssd.authSessionId with
  | none =>
    refine ⟨?_, ?_, ?_, ?_, ?_⟩ <;> simp [successExit, hq, Except.map]
  | some sid =>
    have hse : sid = "" := by
      rw [hq] at hsid
      simpa [truthy] using hsid
    subst hse
    refine ⟨?_, ?_, ?_, ?_, ?_⟩ <;> simp [successExit, hq, Except.map]

/-- A well-formed, unexpired stored state with no session id. -/
def ssdC8 : StoredState :=
  { expiry := some 301000, serverUrlHash := some ("h"),
    authSessionId := none, providerOptions := some po0 }

/-- Success scenario against an entry without a session id, with a live
opener. -/
def envC8 : CbEnv :=
  { query := { code := some ("abc"), state := some ("s1"), error := none,
               errorDescription := none },
    storage := [("mcp:auth:state_s1", StorageVal.state ssdC8)],
    now := 1000, exchange := ExchangeResult.authorized,
    opener := some { closed := false, postFails := false },
    displayFails := false }

/-- Witness for C8 at a concrete entry without a session id. -/
theorem C8_no_session_id_witness :
    (onMcpAuthorization envC8).map Output.publishes = Except.ok [] ∧
    (onMcpAuthorization envC8).map Output.terminal = Except.ok Terminal.ok := by
  have h := C8_no_session_id envC8 ("s1") (StorageVal.state ssdC8) ssdC8 po0
    rfl rfl rfl (by decide) rfl rfl rfl rfl rfl rfl
  exact ⟨h.1, h.2.1⟩

/-- Claim C6: when the exchange capability fails — the SDK call rejects with a
message, or resolves with an unexpected status (wrapped by callback.ts line
109) — the published Outcome (when a truthy session id is known) is
`success=false` carrying that failure message, and no partial artifacts remain:
the pending state entry, the provider's stored code verifier, and its stored
last authorization URL are all absent when the handler returns.  The provider
key shapes are modelled from the spec (browser-provider.js is not under
src/). -/
theorem C6_exchange_failure (env : CbEnv) (s msg : String) (v : StorageVal)
    (ssd : StoredState) (po : ProviderOptions)
    (herr : truthy env.query.error = false) (hcode : truthy env.query.code = true)
    (hstate : env.query.state = some s) (hs : ¬ s = "")
    (hget : getItem env.storage ("mcp:auth:state_" ++ s) = some v)
    (hparse : parseStoredState v = Except.ok ssd)
    (hexp : expiryInvalid ssd.expiry env.now = false)
    (hpo : ssd.providerOptions = some po)
    (hx : exchangeFailMsg env.exchange = some msg) :
    (∀ sid, ssd.authSessionId = some sid → ¬ sid = "" →
      (onMcpAuthorization env).map Output.publishes =
        Except.ok [(authResultKey po.storageKeyBase sid,
          failureResult env.now msg)]) ∧
    (onMcpAuthorization env).map
        (fun o => getItem o.storage ("mcp:auth:state_" ++ s)) = Except.ok none ∧
    (onMcpAuthorization env).map
        (fun o => getItem o.storage ((mkProvider po).getKey ("code_verifier"))) =
      Except.ok none ∧
    (onMcpAuthorization env).map
        (fun o => getItem o.storage ((mkProvider po).getKey ("last_auth_url"))) =
      Except.ok none ∧
    (onMcpAuthorization env).map Output.terminal =
      Except.ok (Terminal.caught msg) := by
  have hred : onMcpAuthorization env =
      runCatch env (some ssd) (some (mkProvider po))
        (some ("mcp:auth:state_" ++ s)) env.storage true msg := by
    cases hex : env.exchange with
    | authorized =>
      rw [hex] at hx
      simp [exchangeFailMsg] at hx
    | throws m =>
      rw [hex] at hx
      simp only [exchangeFailMsg, Option.some.injEq] at hx
      subst hx
      simp [onMcpAuthorization, herr, hcode, hstate, hs, hget, hparse, hexp,
        hpo, hex]
    | status st2 =>
      rw [hex] at hx
      simp only [exchangeFailMsg, Option.some.injEq] at hx
      subst hx
      simp [onMcpAuthorization, herr, hcode, hstate, hs, hget, hparse, hexp,
        hpo, hex]
  rw [hred]
  refine ⟨?_, ?_, ?_, ?_, ?_⟩
  · intro sid hsid hsne
    simp [runCatch, hsid, hsne, hpo, finishCatch, Except.map]
  all_goals
    cases hq : ssd.authSessionId with
    | none =>
      simp [runCatch, hq, finishCatch, Except.map, getItem_removeItem]
    | some sid =>
      by_cases hse : sid = ""
      · simp [runCatch, hq, hse, finishCatch, Except.map, getItem_removeItem]
      · simp [runCatch, hq, hse, hpo, finishCatch, Except.map,
          getItem_removeItem, getItem_setItem]

/-- The success-scenario redirect, but the exchange rejects with message
`boom`. -/
def envC6 : CbEnv :=
  { query := { code := some ("abc"), state := some ("s1"), error := none,
               errorDescription := none },
    storage := [("mcp:auth:state_s1", StorageVal.state ssd0)],
    now := 1000, exchange := ExchangeResult.throws ("boom"), opener := none,
    displayFails := false }

/-- Witness for C6 at a concrete rejecting exchange. -/
theorem C6_exchange_failure_witness :
    (onMcpAuthorization envC6).map Output.publishes =
      Except.ok [(authResultKey ("mcp:auth") ("sess1"),
        failureResult 1000 ("boom"))] ∧
    (onMcpAuthorization envC6).map
        (fun o => getItem o.storage ((mkProvider po0).getKey ("code_verifier"))) =
      Except.ok none := by
  have h := C6_exchange_failure envC6 ("s1") ("boom") (StorageVal.state ssd0)
    ssd0 po0 rfl rfl rfl (by decide) rfl rfl rfl rfl rfl
  exact ⟨h.1 ("sess1") rfl (by decide), h.2.2.1⟩

theorem successExit_absent (env : CbEnv) (ssd : StoredState) (po : ProviderOptions)
    (sk : String) (out : Output) (h : successExit env ssd po sk = Except.ok out) :
    getItem out.storage sk = none := by
  simp only [successExit, Except.ok.injEq] at h
  subst h
  simp [getItem_removeItem]

/-- Every normal termination of the handler with a truthy `state` parameter
leaves the derived state key absent from storage: both exit paths remove it
after any write (success at callback.ts line 105, catch at lines 158-160). -/
theorem onMcp_stateKey_absent (env : CbEnv) (s : String)
    (hstate : env.query.state = some s) (hs : ¬ s = "") (out : Output)
    (h : onMcpAuthorization env = Except.ok out) :
    getItem out.storage ("mcp:auth:state_" ++ s) = none := by
  have hsk : stateKeyFromParam env.query.state = some ("mcp:auth:state_" ++ s) := by
    simp [stateKeyFromParam, hstate, hs]
  simp only [onMcpAuthorization] at h
  rw [hsk, hstate] at h
  simp only [hs, if_false, ite_false] at h
  split at h
  · exact (runCatch_ok_inv _ _ _ _ _ _ _ _ h).2.2.2 _ rfl
  · split at h
    · exact (runCatch_ok_inv _ _ _ _ _ _ _ _ h).2.2.2 _ rfl
    · split at h
      · exact (runCatch_ok_inv _ _ _ _ _ _ _ _ h).2.2.2 _ rfl
      · split at h
        · exact (runCatch_ok_inv _ _ _ _ _ _ _ _ h).2.2.2 _ rfl
        · split at h
          · exact (runCatch_ok_inv _ _ _ _ _ _ _ _ h).2.2.2 _ rfl
          · split at h
            · exact (runCatch_ok_inv _ _ _ _ _ _ _ _ h).2.2.2 _ rfl
            · split at h
              · exact (runCatch_ok_inv _ _ _ _ _ _ _ _ h).2.2.2 _ rfl
              · exact (runCatch_ok_inv _ _ _ _ _ _ _ _ h).2.2.2 _ rfl
              · exact successExit_absent _ _ _ _ _ h

/-- Redirect `?state=s1` with no `code`, against a matching entry: used to
invoke the handler twice in sequence. -/
def envC4a : CbEnv :=
  { query := { code := none, state := some ("s1"), error := none,
               errorDescription := none },
    storage := [("mcp:auth:state_s1", StorageVal.state ssd0)],
    now := 1000, exchange := ExchangeResult.authorized, opener := none,
    displayFails := false }

/-- The second invocation of the same redirect, on the storage the first one
left behind. -/
def envC4b : CbEnv :=
  { envC4a with storage := resultStorage (onMcpAuthorization envC4a) }

/-- Claim C4 (counterexample): invoking the handler twice sequentially with the
same `state=s1` (here with no `code` parameter) never succeeds, but the second
invocation does NOT fail with the unknown-or-expired-state reason: the
missing-code check fires first, so the claimed universal shape of the second
failure is wrong. -/
theorem C4_counterexample :
    (onMcpAuthorization envC4b).map Output.terminal =
      Except.ok (Terminal.caught missingCodeMsg) ∧
    (missingCodeMsg == unknownStateMsg ("s1")) = false := by
  exact ⟨rfl, by decide⟩

/-- Claim C4 (amended): when the redirect carries a truthy `code` and `state`
and no truthy `error`, and the first invocation terminates normally, a
successful completion happens at most once: the second invocation finds no
PendingState entry for the state (the first invocation removed it on every
normal exit) and fails with the unknown-or-expired-state reason, never
succeeding. -/
theorem C4_amended (env : CbEnv) (s : String)
    (herr : truthy env.query.error = false) (hcode : truthy env.query.code = true)
    (hstate : env.query.state = some s) (hs : ¬ s = "")
    (out1 : Output) (h1 : onMcpAuthorization env = Except.ok out1) :
    (onMcpAuthorization { env with storage := out1.storage }).map Output.terminal =
      Except.ok (Terminal.caught (unknownStateMsg s)) ∧
    ∀ out2, onMcpAuthorization { env with storage := out1.storage } = Except.ok out2 →
      ¬ out2.terminal = Terminal.ok := by
  have habs := onMcp_stateKey_absent env s hstate hs out1 h1
  have hred : onMcpAuthorization { env with storage := out1.storage } =
      runCatch { env with storage := out1.storage } none none
        (some ("mcp:auth:state_" ++ s)) out1.storage false (unknownStateMsg s) := by
    simp [onMcpAuthorization, herr, hcode, hstate, hs, habs]
  constructor
  · rw [hred]
    simp [runCatch, finishCatch, Except.map]
  · intro out2 hout2
    rw [hred] at hout2
    have h3 := runCatch_ok_inv _ _ _ _ _ _ _ _ hout2
    rw [h3.1]
    simp

/-- The concrete output of the first (successful) invocation on `envC3`. -/
def outC4w : Output :=
  { storage := [("mcp:auth:auth_result_sess1", StorageVal.result
      { success := true, error := none, timestamp := 1000, expiry := 301000 })],
    posted := [],
    displayed := none,
    exchangeAttempted := true,
    publishes := [("mcp:auth:auth_result_sess1",
      { success := true, error := none, timestamp := 1000, expiry := 301000 })],
    terminal := Terminal.ok,
    closeScheduled := true }

/-- Witness for C4 (amended): after the concrete successful first run, the
second run fails with the unknown-state reason. -/
theorem C4_amended_witness :
    (onMcpAuthorization { envC3 with storage := outC4w.storage }).map Output.terminal =
      Except.ok (Terminal.caught (unknownStateMsg ("s1"))) := by
  exact (C4_amended envC3 ("s1") rfl rfl rfl (by decide) outC4w rfl).1

/-- Everything observable about a run except the direct-channel deliveries:
terminal state, publish log, final storage, and the fallback UI. -/
def outView (o : Output) : Terminal × List (String × AuthResult) × Storage × Option String :=
  (o.terminal, o.publishes, o.storage, o.displayed)

theorem finishCatch_view (env : CbEnv) (o1 o2 : Option Opener)
    (pr : Option BrowserOAuthClientProvider) (skk : Option String) (st : Storage)
    (ea : Bool) (m : String) (pubs : List (String × AuthResult)) :
    (finishCatch { env with opener := o1 } pr skk st ea m pubs).map outView =
    (finishCatch { env with opener := o2 } pr skk st ea m pubs).map outView := rfl

theorem successExit_view (env : CbEnv) (o1 o2 : Option Opener)
    (ssd : StoredState) (po : ProviderOptions) (sk : String) :
    (successExit { env with opener := o1 } ssd po sk).map outView =
    (successExit { env with opener := o2 } ssd po sk).map outView := rfl

theorem runCatch_view (env : CbEnv) (o1 o2 : Option Opener)
    (sd : Option StoredState) (pr : Option BrowserOAuthClientProvider)
    (skk : Option String) (st : Storage) (ea : Bool) (m : String) :
    (runCatch { env with opener := o1 } sd pr skk st ea m).map outView =
    (runCatch { env with opener := o2 } sd pr skk st ea m).map outView := by
  cases sd with
  | none => exact finishCatch_view env o1 o2 pr skk st ea m []
  | some d =>
    cases hsid : d.authSessionId with
    | none =>
      simp only [runCatch, hsid]
      exact finishCatch_view env o1 o2 pr skk st ea m []
    | some sid =>
      by_cases hse : sid = ""
      · simp only [runCatch, hsid, if_pos hse]
        exact finishCatch_view env o1 o2 pr skk st ea m []
      · simp only [runCatch, hsid, if_neg hse]
        cases hpo : d.providerOptions with
        | none => simp [hpo, Except.map]
        | some po =>
          simp only [hpo]
          exact finishCatch_view env o1 o2 pr skk _ ea m _

/-- Claim C7: the direct channel never influences the reconciliation: the
terminal state, the Outcome writes, the final storage, and the fallback UI of a
run are identical for any two opener situations — in particular a failing or
absent `postMessage` delivery is caught and ignored on the success branch and
on every failure branch. -/
theorem C7_delivery_failure_ignored (env : CbEnv) (o1 o2 : Option Opener) :
    (onMcpAuthorization { env with opener := o1 }).map outView =
    (onMcpAuthorization { env with opener := o2 }).map outView := by
  unfold onMcpAuthorization
  dsimp only
  by_cases he : truthy env.query.error = true
  · rw [if_pos he, if_pos he]
    exact runCatch_view env o1 o2 _ _ _ _ _ _
  · rw [if_neg he, if_neg he]
    by_cases hc : truthy env.query.code = false
    · rw [if_pos hc, if_pos hc]
      exact runCatch_view env o1 o2 _ _ _ _ _ _
    · rw [if_neg hc, if_neg hc]
      cases hq : env.query.state with
      | none =>
        simp only [hq]
        exact runCatch_view env o1 o2 _ _ _ _ _ _
      | some s =>
        simp only [hq]
        by_cases hse : s = ""
        · rw [if_pos hse, if_pos hse]
          exact runCatch_view env o1 o2 _ _ _ _ _ _
        · rw [if_neg hse, if_neg hse]
          cases hg : getItem env.storage ("mcp:auth:state_" ++ s) with
          | none =>
            simp only [hg]
            exact runCatch_view env o1 o2 _ _ _ _ _ _
          | some v =>
            simp only [hg]
            cases hp : parseStoredState v with
            | error u =>
              simp only [hp]
              exact runCatch_view env o1 o2 _ _ _ _ _ _
            | ok ssd =>
              simp only [hp]
              by_cases hexp : expiryInvalid ssd.expiry env.now = true
              · rw [if_pos hexp, if_pos hexp]
                exact runCatch_view env o1 o2 _ _ _ _ _ _
              · rw [if_neg hexp, if_neg hexp]
                cases hpo : ssd.providerOptions with
                | none =>
                  simp only [hpo]
                  exact runCatch_view env o1 o2 _ _ _ _ _ _
                | some po =>
                  simp only [hpo]
                  cases hex : env.exchange with
                  | authorized =>
                    simp only [hex]
                    exact successExit_view
                      { env with exchange := ExchangeResult.authorized } o1 o2 ssd po _
                  | status st2 =>
                    simp only [hex]
                    exact runCatch_view
                      { env with exchange := ExchangeResult.status st2 } o1 o2 _ _ _ _ _ _
                  | throws m =>
                    simp only [hex]
                    exact runCatch_view
                      { env with exchange := ExchangeResult.throws m } o1 o2 _ _ _ _ _ _
